import Mathlib

/-!
Verification development for `book_club_app.py` (Book-Summary repository).

The file shallowly embeds the two pure layers of the application:

* the catalog query adapter (`BookClubApp.search_books`, lines 225-294,
  and `BookClubApp.get_cover_url`, lines 296-300), and
* the generation adapter (`call_huggingface_ai`, `_fallback_ai_response`,
  `generate_ai_summary`, `generate_discussion_questions`, lines 178-361),

together with the per-click control flow of `main` (lines 485-502).

HTTP traffic is abstracted into explicit outcome values (the JSON body or
the failure mode the `requests` call produced), and the two uses of the
`random` module (`random.choice` at line 321, `random.sample` at line 361)
are abstracted into explicit parameters: an index for `choice`, and a list
of distinct in-range positions for `sample`, so that every property is
quantified over all draws the library could make.

Python string operations are modelled at the character-list level
(`str_lower`, `str_strip`, `str_split_on`, `chars_contain`, ...) so that all
definitions compute inside the kernel.
-/

/- ### Python string primitives -/

/-- Model of Python `str.lower()` (ASCII case folding, which is all the
source ever feeds it). -/
def str_lower (s : String) : String := ⟨s.data.map Char.toLower⟩

/-- Model of Python `str.strip()`: drop leading and trailing whitespace. -/
def str_strip (s : String) : String :=
  ⟨((s.data.dropWhile Char.isWhitespace).reverse.dropWhile Char.isWhitespace).reverse⟩

/-- Model of Python slicing `s[n:]` (by characters). -/
def str_drop (s : String) (n : Nat) : String := ⟨s.data.drop n⟩

/-- Does `l` begin with `pat`? (character-level `str.startswith`). -/
def starts_with_chars : List Char → List Char → Bool
  | [], _ => true
  | _ :: _, [] => false
  | p :: ps, c :: cs => p == c && starts_with_chars ps cs

/-- Does `l` contain `pat` as a contiguous run? (character-level Python
`pat in l`). -/
def chars_contain (pat : List Char) : List Char → Bool
  | [] => starts_with_chars pat []
  | c :: cs => starts_with_chars pat (c :: cs) || chars_contain pat cs

/-- Model of Python `pat in s` for strings. -/
def str_contains (s pat : String) : Bool := chars_contain pat.data s.data

/-- Model of Python `s.startswith(pre)`. -/
def str_starts_with (s pre : String) : Bool := starts_with_chars pre.data s.data

/-- Split a character list on a single separator character, keeping empty
fragments, exactly like Python `str.split(sep)` with a one-character `sep`. -/
def split_on_char (sep : Char) : List Char → List (List Char)
  | [] => [[]]
  | c :: cs =>
    let r := split_on_char sep cs
    if c == sep then [] :: r
    else
      match r with
      | g :: gs => (c :: g) :: gs
      | [] => [[c]]

/-- Model of Python `s.split(sep)` for a one-character separator. -/
def str_split_on (s : String) (sep : Char) : List String :=
  (split_on_char sep s.data).map (fun l => ⟨l⟩)

/- ### Catalog query adapter (BookClubApp.search_books, lines 225-294) -/

/-- Python truthiness of an optional string (`None` and `""` are falsy). -/
def truthyStr : Option String → Bool
  | none => false
  | some s => !(s == "")

/-- Python truthiness of an optional list (`None` and `[]` are falsy). -/
def truthyList {α : Type} : Option (List α) → Bool
  | none => false
  | some l => !l.isEmpty

/-- One raw entry of the Open Library `docs` array, restricted to the fields
the source reads (the `fields` parameter at line 232).  Ratings are carried
through untouched by the code, so the JSON number is modelled as `Rat`. -/
structure RawDoc where
  title : Option String
  author_name : Option (List String)
  first_publish_year : Option Int
  subject : Option (List String)
  isbn : Option (List String)
  cover_i : Option Int
  ratings_average : Option Rat
  ratings_count : Option Int
deriving DecidableEq

/-- The normalized book record built at lines 279-288. -/
structure Book where
  title : String
  authors : List String
  year : Option Int
  subjects : List String
  isbn : Option String
  cover_id : Option Int
  rating : Option Rat
  rating_count : Int
deriving DecidableEq

/-- The filter at line 278: `if book.get('title') and book.get('author_name')`. -/
def validDoc (d : RawDoc) : Bool :=
  truthyStr d.title && truthyList d.author_name

/-- The record constructed at lines 279-288 for a doc that passed the filter. -/
def mkBook (d : RawDoc) : Book :=
  { title := d.title.getD "Unknown Title"
    authors := d.author_name.getD ["Unknown Author"]
    year := d.first_publish_year
    subjects := (d.subject.getD []).take 5
    isbn := match d.isbn with
            | some (x :: _) => some x
            | some [] => none
            | none => none
    cover_id := d.cover_i
    rating := d.ratings_average
    rating_count := d.ratings_count.getD 0 }

/-- The loop at lines 276-288: keep the docs with truthy title and author
list and normalize each one. -/
def parse_docs (docs : List RawDoc) : List Book :=
  (docs.filter validDoc).map mkBook

/-- What the catalog GET at line 272 produced, as seen by the rest of
`search_books`: a raised transport error, a timeout, or an HTTP response
with a status code and a parsed `docs` array. -/
inductive CatalogOutcome where
  | transportError
  | timeout
  | http (status : Nat) (docs : List RawDoc)
deriving DecidableEq

/-- `search_books` after the request: `raise_for_status` (line 273) raises
for 4xx/5xx codes and the surrounding `try`/`except` (lines 227, 292-294)
turns every raised error into `return []`.  The function is total, so no
failure propagates as an exception. -/
def search_books (outcome : CatalogOutcome) : List Book :=
  match outcome with
  | .transportError => []
  | .timeout => []
  | .http status docs => if 400 ≤ status ∧ status < 600 then [] else parse_docs docs

/-- The genre mapping dictionary at lines 243-259. -/
def genre_mapping : List (String × String) :=
  [("Fiction", "fiction"), ("Mystery", "mystery"), ("Romance", "romance"),
   ("Science Fiction", "science fiction"), ("Fantasy", "fantasy"),
   ("Biography", "biography"), ("History", "history"), ("Self-Help", "self help"),
   ("Business", "business"), ("Philosophy", "philosophy"), ("Psychology", "psychology"),
   ("Poetry", "poetry"), ("Horror", "horror"), ("Thriller", "thriller"),
   ("Adventure", "adventure")]

/-- `genre_mapping.get(genre, genre.lower())` at line 260. -/
def genre_search_term (genre : String) : String :=
  match genre_mapping.lookup genre with
  | some term => term
  | none => str_lower genre

/-- Python `title and title.strip()` (line 237) / `author and author.strip()`
(line 239): the optional input is truthy and has non-whitespace content. -/
def opt_has_text (o : Option String) : Bool :=
  match o with
  | some s => !(s == "") && !(str_strip s == "")
  | none => false

/-- Python `genre and genre != "Any Genre"` (lines 241, 266). -/
def genre_active (genre : Option String) : Bool :=
  match genre with
  | some g => !(g == "") && !(g == "Any Genre")
  | none => false

/-- The clause contributed by the title input (line 238). -/
def title_part (title : Option String) : List String :=
  if opt_has_text title then ["title:\"" ++ str_strip (title.getD "") ++ "\""] else []

/-- The clause contributed by the author input (line 240). -/
def author_part (author : Option String) : List String :=
  if opt_has_text author then ["author:\"" ++ str_strip (author.getD "") ++ "\""] else []

/-- The clause contributed by the genre input (line 261). -/
def genre_part (genre : Option String) : List String :=
  if genre_active genre then ["subject:\"" ++ genre_search_term (genre.getD "") ++ "\""] else []

/-- `search_parts` as built at lines 236-261: title, then author, then genre. -/
def search_parts_q (genre author title : Option String) : List String :=
  title_part title ++ author_part author ++ genre_part genre

/-- The `q` parameter of the catalog request, following lines 264-270:
join the clauses with `" AND "`; with no clause and an active genre the
code sets a `subject` parameter instead of `q` (`none` here — this branch
is unreachable); otherwise `q` is `"fiction"`. -/
def query_q (genre author title : Option String) : Option String :=
  if search_parts_q genre author title ≠ [] then
    some (" AND ".intercalate (search_parts_q genre author title))
  else if genre_active genre then none
  else some "fiction"

/-- The query the spec describes (refinement side for claim C6): one
`field:"value"` clause per non-empty input, joined with `" AND "`, in the
order title, author, genre, and exactly `"fiction"` when all three inputs
are empty.  Non-empty means: for title and author, some text remains after
stripping whitespace; for genre, a value that is neither empty nor the
`"Any Genre"` placeholder. -/
def spec_query_clauses (genre author title : Option String) : List String :=
  (if opt_has_text title then ["title:\"" ++ str_strip (title.getD "") ++ "\""] else [])
    ++ (if opt_has_text author then ["author:\"" ++ str_strip (author.getD "") ++ "\""] else [])
    ++ (if genre_active genre then ["subject:\"" ++ genre_search_term (genre.getD "") ++ "\""] else [])

/-- The full spec-side query (refinement side for claim C6). -/
def spec_query (genre author title : Option String) : String :=
  if spec_query_clauses genre author title = [] then "fiction"
  else " AND ".intercalate (spec_query_clauses genre author title)

/-- `BookClubApp.get_cover_url` (lines 296-300).  Python `if cover_id:` is
falsy for both `None` and `0`. -/
def get_cover_url (cover_id : Option Int) (size : String) : Option String :=
  match cover_id with
  | some c =>
      if c = 0 then none
      else some ("https://covers.openlibrary.org/b/id/" ++ toString c ++ "-" ++ size ++ ".jpg")
  | none => none

/- ### Generation adapter (lines 178-361) -/

/-- The JSON body of a Hugging Face response as `call_huggingface_ai` reads
it (lines 201-209): either not a list, or a list whose entries may carry a
`generated_text` field (`result[0].get('generated_text', '')`). -/
inductive HFBody where
  | notList
  | list (items : List (Option String))
deriving DecidableEq

/-- What the POST at line 198 produced: a raised exception (transport error,
timeout, JSON decode failure — caught at line 214), or a response with a
status code and a body. -/
inductive HFOutcome where
  | exn
  | response (status : Nat) (body : HFBody)
deriving DecidableEq

/-- Python truthiness of the stored token (`if not self.hf_token`, line 180;
`if self.hf_token`, line 330): `None` and `""` are falsy. -/
def tokenPresent : Option String → Bool
  | none => false
  | some s => !(s == "")

/-- The failure modes of a backend call: a raised exception (transport
error or timeout), a non-200 status, or a malformed body (not a list, or an
empty list) — the cases of lines 200-216 that cannot yield generated text. -/
def hfFailed : HFOutcome → Bool
  | .exn => true
  | .response s b =>
    if s = 200 then
      match b with
      | .notList => true
      | .list l => l.isEmpty
    else true

/-- The fixed text returned by `_fallback_ai_response` for prompts that
mention "summary" (line 221). -/
def fallback_summary_text : String :=
  "This book offers readers a compelling narrative that explores deep themes and human experiences. The author weaves together engaging characters and thought-provoking scenarios that challenge readers to examine important life questions. Through masterful storytelling, this work provides both entertainment and insight into the human condition."

/-- The fixed text returned by `_fallback_ai_response` for all other prompts
(line 223). -/
def fallback_general_text : String :=
  "This book presents fascinating themes that would make for excellent book club discussion. Consider exploring the character development, thematic elements, and how the story relates to contemporary issues."

/-- `BookClubApp._fallback_ai_response` (lines 218-223):
`if "summary" in prompt.lower()`. -/
def fallback_ai_response (prompt : String) : String :=
  if str_contains (str_lower prompt) "summary" then fallback_summary_text
  else fallback_general_text

/-- `BookClubApp.call_huggingface_ai` (lines 178-216).  The `max_length`
argument only shapes the request payload, which is abstracted into
`outcome`, so it is not a parameter here.  Every failure path returns the
fallback text; the function is total, so nothing raises past this boundary. -/
def call_huggingface_ai (token : Option String) (outcome : HFOutcome) (prompt : String) : String :=
  if !(tokenPresent token) then fallback_ai_response prompt
  else
    match outcome with
    | .exn => fallback_ai_response prompt
    | .response status body =>
      if status = 200 then
        match body with
        | .list (first :: _) =>
          let generated := first.getD ""
          let cleaned :=
            if str_starts_with generated prompt then str_strip (str_drop generated prompt.length)
            else generated
          if cleaned == "" then fallback_ai_response prompt else cleaned
        | .list [] => fallback_ai_response prompt
        | .notList => fallback_ai_response prompt
      else fallback_ai_response prompt

/-- `author_text` of `generate_ai_summary` (line 304):
`", ".join(authors[:2])`. -/
def summary_author_text (authors : List String) : String :=
  ", ".intercalate (authors.take 2)

/-- `subjects_text` of `generate_ai_summary` (line 305):
`", ".join(subjects[:3]) if subjects else "general literature"`. -/
def summary_subjects_text (subjects : List String) : String :=
  if subjects.isEmpty then "general literature" else ", ".intercalate (subjects.take 3)

/-- The summary prompt built at line 307. -/
def summary_prompt (book_title author_text subjects_text : String) : String :=
  "Write a thoughtful book summary: '" ++ book_title ++ "' by " ++ author_text
    ++ " is a book about " ++ subjects_text ++ ". This book"

/-- The three fallback templates at lines 316-320. -/
def summary_templates (book_title author_text subjects_text : String) : List String :=
  ["'" ++ book_title ++ "' by " ++ author_text ++ " is a captivating work that delves into "
     ++ subjects_text ++ ". This book offers readers a unique perspective on human nature and society, weaving together compelling characters with thought-provoking scenarios. The author's masterful storytelling creates an immersive experience that challenges readers to examine their own beliefs and assumptions.",
   "In '" ++ book_title ++ "', " ++ author_text ++ " delivers a powerful narrative centered around "
     ++ subjects_text ++ ". The book presents a rich tapestry of characters and situations that illuminate deeper truths about the human condition. Readers will find themselves drawn into a world that is both familiar and surprising, with insights that linger long after the final page.",
   "'" ++ book_title ++ "' by " ++ author_text ++ " stands as a remarkable exploration of "
     ++ subjects_text ++ ". The work combines engaging storytelling with profound insights, offering readers both entertainment and enlightenment. Through skillful character development and plot construction, the author creates a memorable reading experience that resonates with diverse audiences."]

/-- `BookClubApp.generate_ai_summary` (lines 302-321).  `random.choice` at
line 321 is abstracted into the index `r` (reduced mod 3). -/
def generate_ai_summary (book_title : String) (authors subjects : List String)
    (token : Option String) (outcome : HFOutcome) (r : Nat) : String :=
  let author_text := summary_author_text authors
  let subjects_text := summary_subjects_text subjects
  let prompt := summary_prompt book_title author_text subjects_text
  let ai_response := call_huggingface_ai token outcome prompt
  if ai_response ≠ "" ∧ 50 < ai_response.length then
    "'" ++ book_title ++ "' by " ++ author_text ++ " explores themes of " ++ subjects_text
      ++ ". " ++ ai_response
  else
    (summary_templates book_title author_text subjects_text).getD (r % 3) ""

/-- The questions prompt built at line 332. -/
def question_prompt (book_title subject_text : String) : String :=
  "Generate discussion questions for the book '" ++ book_title ++ "' about "
    ++ subject_text ++ ". Question 1:"

/-- Lines 334-337: when the AI response is truthy and contains a "?", split
it on "?", keep the stripped non-empty fragments with "?" re-appended, and
take the first two. -/
def extract_ai_questions (ai_response : String) : List String :=
  if !(ai_response == "") && str_contains ai_response "?" then
    ((str_split_on ai_response '?').filterMap (fun q =>
        if str_strip q == "" then none else some (str_strip q ++ "?"))).take 2
  else []

/-- The nine template questions at lines 342-352. -/
def base_questions (book_title author_text subject_text : String) : List String :=
  ["What do you think " ++ author_text ++ " was trying to convey about " ++ subject_text
     ++ " in '" ++ book_title ++ "'?",
   "How do the characters in '" ++ book_title ++ "' reflect real-world challenges and situations?",
   "What themes in '" ++ book_title ++ "' are most relevant to today's society?",
   "How does the author's writing style contribute to the overall impact of '" ++ book_title ++ "'?",
   "What personal connections did you make while reading '" ++ book_title ++ "'?",
   "What questions would you like to ask " ++ author_text ++ " about '" ++ book_title ++ "'?",
   "How might '" ++ book_title ++ "' influence readers' perspectives on important life decisions?",
   "What scenes or passages from the book do you think would spark the most debate in our book club?",
   "If you were to recommend this book to a friend, what would you tell them to expect?"]

/-- The extra per-subject questions appended at lines 355-357. -/
def subject_questions (book_title : String) (subjects : List String) : List String :=
  if subjects.isEmpty then []
  else (subjects.take 2).map (fun subject =>
    "How does '" ++ book_title ++ "' approach the topic of " ++ subject
      ++ " differently from other books you've read?")

/-- `all_questions` as assembled at lines 329-360: the AI-extracted
questions (attempted only when a token is configured, line 330), then the
nine templates, then the per-subject extras. -/
def all_questions (book_title : String) (authors subjects : List String)
    (token : Option String) (outcome : HFOutcome) : List String :=
  let author_text := authors.headD "the author"
  let subject_text := subjects.headD "life"
  let ai_questions :=
    if tokenPresent token then
      extract_ai_questions
        (call_huggingface_ai token outcome (question_prompt book_title subject_text))
    else []
  ai_questions ++ base_questions book_title author_text subject_text
    ++ subject_questions book_title subjects

/-- The elements of `l` at the positions in `idxs`, in that order: the shape
of a `random.sample(l, k)` draw once the drawn positions are fixed. -/
def sampleByIndices (l : List String) (idxs : List Nat) : List String :=
  idxs.filterMap (fun i => l[i]?)

/-- The draws `random.sample(all_questions, min(8, len(all_questions)))` at
line 361 can make: `min 8 n` distinct in-range positions. -/
def ValidSample (n : Nat) (idxs : List Nat) : Prop :=
  idxs.Nodup ∧ idxs.length = min 8 n ∧ ∀ i ∈ idxs, i < n

instance decValidSample (n : Nat) (idxs : List Nat) : Decidable (ValidSample n idxs) :=
  inferInstanceAs (Decidable (idxs.Nodup ∧ idxs.length = min 8 n ∧ ∀ i ∈ idxs, i < n))

/-- `BookClubApp.generate_discussion_questions` (lines 323-361), with the
`random.sample` draw abstracted into the position list `sample`. -/
def generate_discussion_questions (book_title : String) (authors subjects : List String)
    (token : Option String) (outcome : HFOutcome) (sample : List Nat) : List String :=
  sampleByIndices (all_questions book_title authors subjects token outcome) sample

/- ### Per-click control flow of `main` (lines 485-502) -/

/-- HTTP POSTs issued by one execution of `call_huggingface_ai`: the request
at line 198 is sent exactly when the token is truthy (line 180). -/
def call_huggingface_posts (token : Option String) : Nat :=
  if tokenPresent token then 1 else 0

/-- POSTs issued by `generate_ai_summary`: it always calls
`call_huggingface_ai` once (line 309). -/
def summary_backend_posts (token : Option String) : Nat :=
  call_huggingface_posts token

/-- POSTs issued by `generate_discussion_questions`: it calls
`call_huggingface_ai` once, guarded by `if self.hf_token` (lines 330-333). -/
def questions_backend_posts (token : Option String) : Nat :=
  if tokenPresent token then call_huggingface_posts token else 0

/-- POSTs issued by one click of the per-book button in `main` (lines
485-502): the handler calls `generate_ai_summary` and then
`generate_discussion_questions`, storing nothing. -/
def click_backend_posts (token : Option String) : Nat :=
  summary_backend_posts token + questions_backend_posts token

/-- POSTs issued over a session of `clicks` identical clicks: `main` keeps
no cache of generation results, so every click repeats the work. -/
def session_backend_posts (token : Option String) (clicks : Nat) : Nat :=
  clicks * click_backend_posts token

/-- The pair displayed by one click of the per-book button (lines 491-502):
a freshly computed summary and a freshly computed question list. -/
def handle_click (book_title : String) (authors subjects : List String)
    (token : Option String) (outcomeS outcomeQ : HFOutcome) (r : Nat)
    (sample : List Nat) : String × List String :=
  (generate_ai_summary book_title authors subjects token outcomeS r,
   generate_discussion_questions book_title authors subjects token outcomeQ sample)

/- ### Concrete raw docs used by witnesses -/

/-- A raw doc with every consumed field present (7 subjects, so truncation
is visible). -/
def doc_valid_ex : RawDoc :=
  { title := some "Dune"
    author_name := some ["Frank Herbert"]
    first_publish_year := some 1965
    subject := some ["s1", "s2", "s3", "s4", "s5", "s6", "s7"]
    isbn := some ["9780441013593"]
    cover_i := some 44444
    ratings_average := some (4 : Rat)
    ratings_count := some 100 }

/-- A raw doc with an empty title, which the filter at line 278 drops. -/
def doc_invalid_ex : RawDoc :=
  { title := some ""
    author_name := some ["Somebody"]
    first_publish_year := none
    subject := none
    isbn := none
    cover_i := none
    ratings_average := none
    ratings_count := none }

/- ### Helper lemmas -/

set_option maxRecDepth 40000

theorem string_data_append (a b : String) : (a ++ b).data = a.data ++ b.data := rfl

theorem str_of_data_eq_nil (a : String) (h : a.data = []) : a = "" := by
  cases a with
  | mk l =>
    have h' : l = [] := h
    subst h'
    rfl

theorem str_append_ne_empty (a b : String) (h : a ≠ "") : a ++ b ≠ "" := by
  intro hc
  apply h
  apply str_of_data_eq_nil
  have hd : a.data ++ b.data = ([] : List Char) := by
    have h2 := congrArg String.data hc
    rw [string_data_append] at h2
    exact h2
  exact (List.append_eq_nil.mp hd).1

theorem starts_with_chars_append (pat l r : List Char)
    (h : starts_with_chars pat l = true) : starts_with_chars pat (l ++ r) = true := by
  induction pat generalizing l with
  | nil => rfl
  | cons p ps ih =>
    cases l with
    | nil => simp [starts_with_chars] at h
    | cons c cs =>
      simp [starts_with_chars] at h ⊢
      exact ⟨h.1, ih cs h.2⟩

theorem chars_contain_nil (l : List Char) : chars_contain [] l = true := by
  cases l with
  | nil => rfl
  | cons c cs => simp [chars_contain, starts_with_chars]

theorem chars_contain_append (pat a b : List Char)
    (h : chars_contain pat a = true) : chars_contain pat (a ++ b) = true := by
  induction a with
  | nil =>
    cases pat with
    | nil => simpa using chars_contain_nil b
    | cons p ps => simp [chars_contain, starts_with_chars] at h
  | cons c cs ih =>
    simp [List.cons_append, chars_contain] at h ⊢
    rcases h with h | h
    · exact Or.inl (starts_with_chars_append _ _ _ h)
    · exact Or.inr (ih h)

theorem sampleByIndices_length (l : List String) (idxs : List Nat)
    (h : ∀ i ∈ idxs, i < l.length) :
    (sampleByIndices l idxs).length = idxs.length := by
  induction idxs with
  | nil => rfl
  | cons i rest ih =>
    have hi : i < l.length := h i (List.mem_cons_self i rest)
    have hr : ∀ j ∈ rest, j < l.length := fun j hj => h j (List.mem_cons_of_mem _ hj)
    unfold sampleByIndices
    rw [List.filterMap_cons]
    simp only [List.getElem?_eq_getElem hi]
    simpa [sampleByIndices] using ih hr

theorem sampleByIndices_mem (l : List String) (idxs : List Nat) (q : String)
    (h : q ∈ sampleByIndices l idxs) : q ∈ l := by
  unfold sampleByIndices at h
  rw [List.mem_filterMap] at h
  obtain ⟨i, _, hq⟩ := h
  exact List.getElem?_mem hq

theorem summary_prompt_has_summary (bt a s : String) :
    str_contains (str_lower (summary_prompt bt a s)) "summary" = true := by
  show chars_contain ("summary".data)
      (List.map Char.toLower (summary_prompt bt a s).data) = true
  simp only [summary_prompt, string_data_append, List.map_append, List.append_assoc]
  exact chars_contain_append _ _ _ (by decide)

theorem fallback_on_summary_prompt (bt a s : String) :
    fallback_ai_response (summary_prompt bt a s) = fallback_summary_text := by
  unfold fallback_ai_response
  rw [summary_prompt_has_summary]
  simp

theorem fallback_ne_empty (prompt : String) : fallback_ai_response prompt ≠ "" := by
  unfold fallback_ai_response
  split
  · decide
  · decide

theorem call_unreachable (t prompt : String) (ht : t ≠ "") :
    call_huggingface_ai (some t) .exn prompt = fallback_ai_response prompt := by
  have h1 : tokenPresent (some t) = true := by
    simp [tokenPresent, ht]
  simp [call_huggingface_ai, h1]

theorem gen_summary_unreachable (bt : String) (au su : List String) (t : String)
    (ht : t ≠ "") (r : Nat) :
    generate_ai_summary bt au su (some t) .exn r =
      "'" ++ bt ++ "' by " ++ summary_author_text au ++ " explores themes of "
        ++ summary_subjects_text su ++ ". " ++ fallback_summary_text := by
  simp only [generate_ai_summary]
  rw [call_unreachable t _ ht, fallback_on_summary_prompt]
  rw [if_pos (show fallback_summary_text ≠ "" ∧ 50 < fallback_summary_text.length from
    ⟨by decide, by decide⟩)]

theorem extract_fallback_empty (prompt : String) :
    extract_ai_questions (fallback_ai_response prompt) = [] := by
  unfold fallback_ai_response
  split
  · decide
  · decide

theorem all_questions_length_ge (bt : String) (au su : List String)
    (token : Option String) (outcome : HFOutcome) :
    9 ≤ (all_questions bt au su token outcome).length := by
  simp [all_questions, base_questions]
  omega

/- ### Claim theorems -/

/-- C6: for every (genre, author, title) input combination, the constructed
catalog query string contains one field:"value" clause per non-empty input,
joined with AND, in the order title, author, genre; and when all three
inputs are empty the query is exactly "fiction".  (`query_q` is the code
side; `spec_query` is the spec side.  The code's `elif` branch that would
set a `subject` parameter instead of `q` is shown unreachable.) -/
theorem claim_C6_theorem (genre author title : Option String) :
    query_q genre author title = some (spec_query genre author title) := by
  have hcl : spec_query_clauses genre author title = search_parts_q genre author title := rfl
  by_cases h : search_parts_q genre author title = []
  · have hg : genre_part genre = [] := by
      have h2 : (title_part title ++ author_part author) ++ genre_part genre = [] := h
      exact (List.append_eq_nil.mp h2).2
    have hga : genre_active genre = false := by
      cases hval : genre_active genre with
      | false => rfl
      | true =>
        exfalso
        unfold genre_part at hg
        rw [hval] at hg
        simp at hg
    unfold query_q spec_query
    rw [hcl, h]
    simp [hga]
  · unfold query_q spec_query
    rw [hcl]
    simp [h]

/-- C7: for every raw catalog response, entries with an absent/empty title
or an absent/empty author list contribute nothing to the parsed records
(filtering them away first changes nothing), every returned record comes
from a doc that passed the validity filter, and each record's subjects list
is truncated to at most 5 entries. -/
theorem claim_C7_theorem (docs : List RawDoc) :
    parse_docs (docs.filter validDoc) = parse_docs docs ∧
    ∀ b ∈ parse_docs docs, b.subjects.length ≤ 5 ∧
      ∃ d ∈ docs, validDoc d = true ∧ b = mkBook d := by
  constructor
  · unfold parse_docs
    rw [List.filter_filter]
    simp
  · intro b hb
    unfold parse_docs at hb
    rw [List.mem_map] at hb
    obtain ⟨d, hd, rfl⟩ := hb
    rw [List.mem_filter] at hd
    refine ⟨?_, d, hd.1, hd.2, rfl⟩
    unfold mkBook
    simp only [List.length_take]
    omega

/-- C7 witness: a two-doc list where the invalid doc (empty title) is
dropped and the valid doc's 7 subjects are cut to 5. -/
theorem claim_C7_witness :
    parse_docs ([doc_invalid_ex, doc_valid_ex].filter validDoc)
        = parse_docs [doc_invalid_ex, doc_valid_ex] ∧
    (mkBook doc_valid_ex).subjects.length ≤ 5 := by
  refine ⟨(claim_C7_theorem [doc_invalid_ex, doc_valid_ex]).1, ?_⟩
  exact ((claim_C7_theorem [doc_invalid_ex, doc_valid_ex]).2 (mkBook doc_valid_ex) (by decide)).1

/-- C8: a transport error, a timeout, or a non-success (4xx/5xx) HTTP
status all make `search_books` return the empty list; the function is
total, so no failure propagates as an exception. -/
theorem claim_C8_theorem (s : Nat) (docs : List RawDoc) (h4 : 400 ≤ s) (h6 : s < 600) :
    search_books .transportError = [] ∧ search_books .timeout = [] ∧
      search_books (.http s docs) = [] := by
  refine ⟨rfl, rfl, ?_⟩
  show (if 400 ≤ s ∧ s < 600 then [] else parse_docs docs) = []
  rw [if_pos ⟨h4, h6⟩]

/-- C8 witness: a 404 response with a non-empty docs array still yields no
records. -/
theorem claim_C8_witness :
    search_books (.http 404 [doc_valid_ex]) = [] :=
  (claim_C8_theorem 404 [doc_valid_ex] (by decide) (by decide)).2.2

/-- C10: `get_cover_url` returns no URL when the cover id is absent or 0
(Python truthiness treats 0 like `None`), and otherwise returns exactly the
covers.openlibrary.org URL for the given id and size code. -/
theorem claim_C10_theorem (cover_id : Option Int) (size : String) :
    (cover_id = none → get_cover_url cover_id size = none) ∧
    (cover_id = some 0 → get_cover_url cover_id size = none) ∧
    ∀ c : Int, cover_id = some c → c ≠ 0 →
      get_cover_url cover_id size =
        some ("https://covers.openlibrary.org/b/id/" ++ toString c ++ "-" ++ size ++ ".jpg") := by
  refine ⟨?_, ?_, ?_⟩
  · intro h
    subst h
    rfl
  · intro h
    subst h
    rfl
  · intro c hc hne
    subst hc
    simp [get_cover_url, hne]

/-- C10 witness: cover id 240727 at size M gives the expected URL, and an
absent id and id 0 give none. -/
theorem claim_C10_witness :
    get_cover_url (some 240727) "M"
        = some ("https://covers.openlibrary.org/b/id/" ++ toString (240727 : Int) ++ "-" ++ "M" ++ ".jpg") ∧
    get_cover_url none "M" = none ∧ get_cover_url (some 0) "M" = none := by
  have h1 := claim_C10_theorem (some 240727) "M"
  have h2 := claim_C10_theorem none "M"
  have h3 := claim_C10_theorem (some 0) "M"
  exact ⟨h1.2.2 240727 rfl (by decide), h2.1 rfl, h3.2.1 rfl⟩

/-- C9 counterexample: with no authors the code's `author_text` is the
empty string, not "Unknown", and with no subjects its `subjects_text` is
"general literature", not "general themes". -/
theorem claim_C9_counterexample :
    summary_author_text [] ≠ "Unknown" ∧ summary_subjects_text [] ≠ "general themes" := by
  constructor <;> decide

/-- C9 (amended): in `generate_ai_summary`'s prompt construction,
`author_text` is the first two authors joined by ", " — the empty string
when there are no authors — and `subjects_text` is the first three subjects
joined by ", ", or "general literature" when there are none. -/
theorem claim_C9_theorem (authors subjects : List String) :
    (authors = [] → summary_author_text authors = "") ∧
    (∀ a, authors = [a] → summary_author_text authors = a) ∧
    (∀ a b rest, authors = a :: b :: rest → summary_author_text authors = a ++ ", " ++ b) ∧
    (subjects = [] → summary_subjects_text subjects = "general literature") ∧
    (∀ x, subjects = [x] → summary_subjects_text subjects = x) ∧
    (∀ x y, subjects = [x, y] → summary_subjects_text subjects = x ++ ", " ++ y) ∧
    (∀ x y z rest, subjects = x :: y :: z :: rest →
        summary_subjects_text subjects = x ++ ", " ++ y ++ ", " ++ z) :=
  ⟨fun h => by subst h; rfl,
   fun a h => by subst h; rfl,
   fun a b rest h => by subst h; rfl,
   fun h => by subst h; rfl,
   fun x h => by subst h; rfl,
   fun x y h => by subst h; rfl,
   fun x y z rest h => by subst h; rfl⟩

/-- C9 witness: concrete author and subject lists, including the empty
ones. -/
theorem claim_C9_witness :
    summary_author_text [] = "" ∧
    summary_author_text ["Ann", "Bob", "Cid"] = "Ann, Bob" ∧
    summary_subjects_text [] = "general literature" ∧
    summary_subjects_text ["war", "love", "fate", "time"] = "war, love, fate" := by
  have h0 := claim_C9_theorem [] []
  have h1 := claim_C9_theorem ["Ann", "Bob", "Cid"] []
  have h2 := claim_C9_theorem [] ["war", "love", "fate", "time"]
  exact ⟨h0.1 rfl, h1.2.2.1 "Ann" "Bob" ["Cid"] rfl, h0.2.2.2.1 rfl,
    h2.2.2.2.2.2.2 "war" "love" "fate" ["time"] rfl⟩

/-- C1 counterexample: feeding the backend text "1. What?\n2. Why?\n3. How?"
through the questions operation does not yield ["What?", "Why?", "How?"]:
the numbering is never stripped (the first sampled element keeps its "1. "
marker), and there is no k=3 mode at all — the draw has min(8, candidates)
elements. -/
theorem claim_C1_counterexample :
    (generate_discussion_questions "T" ["A"] [] (some "t")
        (.response 200 (.list [some "1. What?\n2. Why?\n3. How?"])) [0, 1, 2, 3, 4, 5, 6, 7]).head?
        = some "1. What?" ∧
    generate_discussion_questions "T" ["A"] [] (some "t")
        (.response 200 (.list [some "1. What?\n2. Why?\n3. How?"])) [0, 1, 2, 3, 4, 5, 6, 7]
        ≠ ["What?", "Why?", "How?"] ∧
    ValidSample (all_questions "T" ["A"] [] (some "t")
        (.response 200 (.list [some "1. What?\n2. Why?\n3. How?"]))).length
      [0, 1, 2, 3, 4, 5, 6, 7] :=
  ⟨by decide, by decide, by decide⟩

/-- C1 (amended): the code has no numbering-stripping parse; it splits the
raw response on "?", strips surrounding whitespace, re-appends "?", and
keeps at most the first two fragments, numbering intact: on the raw text
"1. What?\n2. Why?\n3. How?" the extracted questions are exactly
["1. What?", "2. Why?"]. -/
theorem claim_C1_theorem :
    extract_ai_questions "1. What?\n2. Why?\n3. How?" = ["1. What?", "2. Why?"] := by
  decide

/-- C2 counterexample: with the default (token-less) configuration and one
perfectly valid random draw, the question list has 8 elements, violating
the claimed bound of k = 5 (there is no k parameter in the code at all). -/
theorem claim_C2_counterexample :
    ValidSample (all_questions "T" ["A"] [] none .exn).length [0, 1, 2, 3, 4, 5, 6, 7] ∧
    (generate_discussion_questions "T" ["A"] [] none .exn [0, 1, 2, 3, 4, 5, 6, 7]).length = 8 ∧
    ¬ (generate_discussion_questions "T" ["A"] [] none .exn [0, 1, 2, 3, 4, 5, 6, 7]).length ≤ 5 :=
  ⟨by decide, by decide, by decide⟩

/-- C2 (amended): the questions operation takes no requested count; for
every draw `random.sample` can make it returns exactly
min(8, number of candidate questions) strings, each taken from the
candidate list (at distinct positions, in the sampled order — not
first-seen order). -/
theorem claim_C2_theorem (book_title : String) (authors subjects : List String)
    (token : Option String) (outcome : HFOutcome) (sample : List Nat)
    (h : ValidSample (all_questions book_title authors subjects token outcome).length sample) :
    (generate_discussion_questions book_title authors subjects token outcome sample).length
        = min 8 (all_questions book_title authors subjects token outcome).length ∧
    ∀ q ∈ generate_discussion_questions book_title authors subjects token outcome sample,
      q ∈ all_questions book_title authors subjects token outcome := by
  obtain ⟨-, hlen, hin⟩ := h
  constructor
  · unfold generate_discussion_questions
    rw [sampleByIndices_length _ _ hin, hlen]
  · intro q hq
    exact sampleByIndices_mem _ _ _ hq

/-- C2 witness: a concrete valid draw over the 9 token-less candidates. -/
theorem claim_C2_witness :
    ValidSample (all_questions "T" ["A"] [] none .exn).length [0, 1, 2, 3, 4, 5, 6, 7] ∧
    (generate_discussion_questions "T" ["A"] [] none .exn [0, 1, 2, 3, 4, 5, 6, 7]).length
        = min 8 (all_questions "T" ["A"] [] none .exn).length := by
  have h := claim_C2_theorem "T" ["A"] [] none .exn [0, 1, 2, 3, 4, 5, 6, 7] (by decide)
  exact ⟨by decide, h.1⟩

/-- C3 counterexample: with a configured token and a raised transport
error, the summary operation returns a non-empty string (the fallback
template, not "") and the questions operation returns a non-empty list for
a valid draw. -/
theorem claim_C3_counterexample :
    generate_ai_summary "T" ["A"] ["S"] (some "t") .exn 0 ≠ "" ∧
    ValidSample (all_questions "T" ["A"] ["S"] (some "t") .exn).length [0, 1, 2, 3, 4, 5, 6, 7] ∧
    generate_discussion_questions "T" ["A"] ["S"] (some "t") .exn [0, 1, 2, 3, 4, 5, 6, 7] ≠ [] :=
  ⟨by decide, by decide, by decide⟩

/-- C3 (amended): on any failed backend call (raised transport error,
non-200 status, or malformed body) `call_huggingface_ai` returns the
deterministic, non-empty fallback template — not the empty string — and,
being total, lets no exception propagate past the adapter boundary. -/
theorem claim_C3_theorem (token : Option String) (outcome : HFOutcome) (prompt : String)
    (h : hfFailed outcome = true) :
    call_huggingface_ai token outcome prompt = fallback_ai_response prompt ∧
    fallback_ai_response prompt ≠ "" := by
  refine ⟨?_, fallback_ne_empty prompt⟩
  cases htk : tokenPresent token with
  | false => simp [call_huggingface_ai, htk]
  | true =>
    cases outcome with
    | exn => simp [call_huggingface_ai, htk]
    | response s b =>
      unfold hfFailed at h
      by_cases hs : s = 200
      · subst hs
        simp only [if_pos rfl] at h
        cases b with
        | notList => simp [call_huggingface_ai, htk]
        | list l =>
          cases l with
          | nil => simp [call_huggingface_ai, htk]
          | cons x xs => simp at h
      · simp [call_huggingface_ai, htk, hs]

/-- C3 witness: a raised transport error with a configured token. -/
theorem claim_C3_witness :
    hfFailed .exn = true ∧
    call_huggingface_ai (some "tok") .exn "any prompt" = fallback_ai_response "any prompt" ∧
    fallback_ai_response "any prompt" ≠ "" := by
  have h := claim_C3_theorem (some "tok") .exn "any prompt" rfl
  exact ⟨rfl, h.1, h.2⟩

/-- C4 counterexample: `main` has no cache — a second click on the same
book performs the same 2 backend POSTs again (4 over two clicks, not 2),
and with a different random draw the second click's displayed result
differs from the first, so the first GenerationResult is not reused. -/
theorem claim_C4_counterexample :
    click_backend_posts (some "t") = 2 ∧
    session_backend_posts (some "t") 2 = 4 ∧
    ValidSample (all_questions "T" ["A"] [] (some "t") .exn).length [0, 1, 2, 3, 4, 5, 6, 7] ∧
    ValidSample (all_questions "T" ["A"] [] (some "t") .exn).length [1, 0, 2, 3, 4, 5, 6, 7] ∧
    handle_click "T" ["A"] [] (some "t") .exn .exn 0 [0, 1, 2, 3, 4, 5, 6, 7]
      ≠ handle_click "T" ["A"] [] (some "t") .exn .exn 0 [1, 0, 2, 3, 4, 5, 6, 7] :=
  ⟨by decide, by decide, by decide, by decide, by decide⟩

/-- C4 (amended): there is no per-record cache: every click of the
per-book button recomputes the generation result, issuing 2 backend POSTs
per click whenever a token is configured — 2·n POSTs over n identical
clicks — so a second lookup always performs backend calls again. -/
theorem claim_C4_theorem (token : Option String) (h : tokenPresent token = true) (clicks : Nat) :
    session_backend_posts token clicks = 2 * clicks ∧ click_backend_posts token ≠ 0 := by
  have hc : click_backend_posts token = 2 := by
    simp [click_backend_posts, summary_backend_posts, questions_backend_posts,
      call_huggingface_posts, h]
  constructor
  · unfold session_backend_posts
    rw [hc]
    omega
  · rw [hc]
    decide

/-- C4 witness: two clicks with a configured token. -/
theorem claim_C4_witness :
    session_backend_posts (some "t") 2 = 2 * 2 ∧ click_backend_posts (some "t") ≠ 0 :=
  claim_C4_theorem (some "t") (by decide) 2

/-- C5 counterexample: with an unreachable backend the two calls' question
lists are not empty and two legitimate random draws give different lists,
so the results are neither empty nor necessarily identical. -/
theorem claim_C5_counterexample :
    ValidSample (all_questions "T" ["A"] [] (some "t") .exn).length [0, 1, 2, 3, 4, 5, 6, 7] ∧
    ValidSample (all_questions "T" ["A"] [] (some "t") .exn).length [1, 0, 2, 3, 4, 5, 6, 7] ∧
    generate_discussion_questions "T" ["A"] [] (some "t") .exn [0, 1, 2, 3, 4, 5, 6, 7]
      ≠ generate_discussion_questions "T" ["A"] [] (some "t") .exn [1, 0, 2, 3, 4, 5, 6, 7] ∧
    generate_discussion_questions "T" ["A"] [] (some "t") .exn [0, 1, 2, 3, 4, 5, 6, 7] ≠ [] ∧
    generate_ai_summary "T" ["A"] [] (some "t") .exn 0 ≠ "" :=
  ⟨by decide, by decide, by decide, by decide, by decide⟩

/-- C5 (amended): with an unreachable backend (configured token, raised
transport error) no exception is raised — both operations are total — the
summary is the same non-empty deterministic string on both calls
(independent of the random template index), and each call's question list
has exactly 8 elements (hence is never empty), though its content is a
fresh random sample each time. -/
theorem claim_C5_theorem (book_title : String) (authors subjects : List String)
    (t : String) (ht : t ≠ "") (r r' : Nat) (s1 s2 : List Nat)
    (h1 : ValidSample (all_questions book_title authors subjects (some t) .exn).length s1)
    (h2 : ValidSample (all_questions book_title authors subjects (some t) .exn).length s2) :
    generate_ai_summary book_title authors subjects (some t) .exn r
        = generate_ai_summary book_title authors subjects (some t) .exn r' ∧
    generate_ai_summary book_title authors subjects (some t) .exn r ≠ "" ∧
    (generate_discussion_questions book_title authors subjects (some t) .exn s1).length = 8 ∧
    (generate_discussion_questions book_title authors subjects (some t) .exn s2).length = 8 := by
  have hsum := gen_summary_unreachable book_title authors subjects t ht
  have h9 := all_questions_length_ge book_title authors subjects (some t) .exn
  refine ⟨?_, ?_, ?_, ?_⟩
  · rw [hsum r, hsum r']
  · rw [hsum r]
    apply str_append_ne_empty
    apply str_append_ne_empty
    apply str_append_ne_empty
    apply str_append_ne_empty
    apply str_append_ne_empty
    apply str_append_ne_empty
    apply str_append_ne_empty
    decide
  · obtain ⟨-, hlen, hin⟩ := h1
    unfold generate_discussion_questions
    rw [sampleByIndices_length _ _ hin, hlen]
    omega
  · obtain ⟨-, hlen, hin⟩ := h2
    unfold generate_discussion_questions
    rw [sampleByIndices_length _ _ hin, hlen]
    omega

/-- C5 witness: two calls with different random draws over an unreachable
backend. -/
theorem claim_C5_witness :
    generate_ai_summary "T" ["A"] [] (some "t") .exn 0
        = generate_ai_summary "T" ["A"] [] (some "t") .exn 1 ∧
    generate_ai_summary "T" ["A"] [] (some "t") .exn 0 ≠ "" ∧
    (generate_discussion_questions "T" ["A"] [] (some "t") .exn [0, 1, 2, 3, 4, 5, 6, 7]).length
        = 8 := by
  have h := claim_C5_theorem "T" ["A"] [] "t" (by decide) 0 1
    [0, 1, 2, 3, 4, 5, 6, 7] [1, 0, 2, 3, 4, 5, 6, 7] (by decide) (by decide)
  exact ⟨h.1, h.2.1, h.2.2.1⟩
